import Mathlib

/-!
Verification of the corrosion replication core against its specification.

This file shallowly embeds the two source files of the repository:
  - crates/corro-agent/src/api/http.rs  (local write intake: make_broadcastable_changes,
    execute_statement, api_v1_db_execute)
  - crates/corrosion/src/agent.rs       (remote ingestion: process_msg; transport:
    handle_payload, handle_broadcast; sync client: handle_sync; init_migration)

The SQLite engine extended with cr-sqlite (crsql_dbversion, crsql_changes,
crsql_rows_impacted) is external to the repository; it is abstracted as a record of
operations over an opaque engine-state type, exactly at the surface the source code
touches.  The Bookie (corro-types, not under src/) is modelled from the spec, section
4.B, as an association list of (actor, version, state) records with the operations the
source calls: contains, last, insert/add.
-/

namespace Corrosion

/-- A 128-bit actor identifier (ActorId in corro-types); modelled as a natural. -/
abbrev ActorId := Nat

/-- A per-actor monotonic version counter (u64 in the source). -/
abbrev Version := Nat

/-- An HLC timestamp; the claims never depend on its internal structure, so it is
modelled as a natural produced by the agent clock. -/
abbrev Timestamp := Nat

/-- One row-change record, mirroring `struct Change` used by both source files:
`{table, pk, cid, val, col_version, db_version, site_id}`.  `db_version` and
`col_version` are i64 in the source, hence Int. -/
structure Change where
  table : String
  pk : String
  cid : String
  val : String
  col_version : Int
  db_version : Int
  site_id : ActorId
deriving DecidableEq, Repr

/-- The per-version bookkeeping state stored in the Bookie (KnownDbVersion in
corro-types): the source files construct only the Current and Cleared variants. -/
inductive KnownDbVersion where
  | Current (db_version : Int) (ts : Timestamp)
  | Cleared
deriving DecidableEq, Repr

/-- Wire message, mirroring `MessageV1` of corro-types as the source files consume it:
`Change { actor_id, version, changeset, ts }` (agent.rs iterates the changeset as a
sequence of Change) and `UpsertSubscription { actor_id, id, filter, ts }`. -/
inductive Message where
  | change (actor_id : ActorId) (version : Version) (changeset : List Change)
      (ts : Timestamp)
  | upsertSubscription (actor_id : ActorId) (id : String) (filter : String)
      (ts : Timestamp)
deriving DecidableEq, Repr

/-- Modelled from the spec: section 4.B gives the Bookie as a mapping
`ActorId → map of Version → VersionState` (corro-types, not under src/).  It is
embedded as an association list of records; insertion conses a record. -/
abbrev Bookie := List (ActorId × Version × KnownDbVersion)

/-- Modelled from the spec: Bookie membership test `contains(actor, version)`. -/
def Bookie.contains : Bookie → ActorId → Version → Bool
  | [], _, _ => false
  | (a, v, _) :: rest, act, ver =>
    (a = act && v = ver) || Bookie.contains rest act ver

/-- Modelled from the spec: `last(actor)` — highest version present, or absent. -/
def Bookie.last : Bookie → ActorId → Option Version
  | [], _ => none
  | (a, v, _) :: rest, act =>
    let r := Bookie.last rest act
    if a = act then
      some (match r with | none => v | some m => max v m)
    else r

/-- Modelled from the spec: `insert(actor, version, state)` records a version state. -/
def Bookie.insert (b : Bookie) (act : ActorId) (ver : Version)
    (st : KnownDbVersion) : Bookie :=
  (act, ver, st) :: b

/-- `bookie.add(actor_id, version, db_version, ts)` as called by process_msg: records
`Current {db_version, ts}` when a db_version was produced, `Cleared` otherwise
(spec section 4.E step 8). -/
def Bookie.add (b : Bookie) (act : ActorId) (ver : Version)
    (db_version : Option Int) (ts : Timestamp) : Bookie :=
  Bookie.insert b act ver
    (match db_version with
     | some d => KnownDbVersion.Current d ts
     | none => KnownDbVersion.Cleared)

/-- One row of the persisted `__corro_bookkeeping` table:
`(actor_id, version, db_version NULL, ts)`. -/
structure BkRow where
  actor_id : ActorId
  version : Version
  db_version : Option Int
  ts : Timestamp
deriving DecidableEq, Repr

/-- The cr-sqlite surface touched by the remote-ingestion path (process_msg), over an
opaque engine-state type `S`: `SELECT crsql_dbversion()`, the
`INSERT INTO crsql_changes` statement, `SELECT crsql_rows_impacted()` read right after
that insert, and `SELECT MAX(db_version) FROM crsql_changes`. -/
structure EngineOps (S : Type) where
  dbversion : S → Int
  insertChange : S → Change → S
  rowsImpacted : S → Int
  maxDbVersion : S → Int

/-- State of the ingesting agent as process_msg reads and writes it: the Bookie, the
persisted bookkeeping rows, the engine, and the changesets offered to the
subscription hook. -/
structure IngestState (S : Type) where
  bookie : Bookie
  bkRows : List BkRow
  engine : S
  subEvents : List (List Change)

/-- The per-change loop of process_msg (agent.rs lines 1028-1052): each change is
inserted into crsql_changes, and it is kept in the impactful projection exactly when
`crsql_rows_impacted()` read immediately afterwards is positive. -/
def applyChanges (E : EngineOps S) (s : S) : List Change → S × List Change
  | [] => (s, [])
  | c :: rest =>
    let s1 := E.insertChange s c
    let keep := 0 < E.rowsImpacted s1
    let out := applyChanges E s1 rest
    (out.1, if keep then c :: out.2 else out.2)

/-- process_msg (agent.rs lines 991-1112): on a Change message, return None when the
Bookie already contains (actor, version); otherwise apply every change, compute
`end_version = MAX(db_version)`, insert a bookkeeping row, publish the impactful
projection to subscribers when a db_version was produced, register the version with
the Bookie, and return the rebuilt Change message.  Other V1 messages are returned
unchanged with no state change. -/
def process_msg (E : EngineOps S) (st : IngestState S) (msg : Message) :
    Option Message × IngestState S :=
  match msg with
  | Message.change actor_id version changeset ts =>
    if Bookie.contains st.bookie actor_id version then (none, st)
    else
      let start_version := E.dbversion st.engine
      let applied := applyChanges E st.engine changeset
      let impactful := applied.2
      let end_version := E.maxDbVersion applied.1
      let db_version := if start_version < end_version then some end_version else none
      let bkRows := st.bkRows ++ [⟨actor_id, version, db_version, ts⟩]
      let subEvents :=
        match db_version with
        | some _ => st.subEvents ++ [impactful]
        | none => st.subEvents
      let outMsg := Message.change actor_id version impactful ts
      let bookie := Bookie.add st.bookie actor_id version db_version ts
      (some outMsg, ⟨bookie, bkRows, applied.1, subEvents⟩)
  | m => (some m, st)

/-- N-fold application of process_msg to the same message, keeping the evolving
state (the shape of the idempotence law in spec section 8, property 2). -/
def processN (E : EngineOps S) (st : IngestState S) (msg : Message) : Nat → IngestState S
  | 0 => st
  | n + 1 => (process_msg E (processN E st msg n) msg).2

/-! ## Local write intake (crates/corro-agent/src/api/http.rs) -/

/-- The typed error of make_broadcastable_changes (`enum ChangeError`):
connection-acquisition, engine (rusqlite) failure, or the row-impact cap. -/
inductive ChangeError where
  | connAcquisition
  | rusqlite (msg : String)
  | tooManyRowsImpacted
deriving DecidableEq, Repr

/-- The cr-sqlite surface touched by the local-write path: `SELECT crsql_dbversion()`,
`SELECT crsql_rows_impacted()` read after the user closure, and the drain query
`SELECT ... FROM crsql_changes WHERE site_id IS NULL AND db_version > ?`. -/
structure WriteEngineOps (S : Type) where
  dbversion : S → Int
  rowsImpacted : S → Int
  drainSince : S → Int → List Change

/-- State of the local agent as make_broadcastable_changes reads and writes it: actor
id, the configured `max_change_size` cap, the clock (HLC abstracted to a counter
value), the Bookie, the persisted bookkeeping rows, the engine, the messages handed
to the broadcast channel, and the changesets passed to process_subs. -/
structure WriteAgent (S : Type) where
  actorId : ActorId
  maxChangeSize : Int
  clock : Nat
  bookie : Bookie
  bkRows : List BkRow
  engine : S
  broadcasts : List Message
  subEvents : List (List Change)

/-- The error SQLite raises for the bookkeeping INSERT of
make_broadcastable_changes (http.rs lines 110-121): the statement names the column
`start_version`, which the `__corro_bookkeeping` table created by init_migration
does not have (see corroBookkeepingTableColumns and
localWriteBookkeepingInsertColumns below). -/
def bookkeepingInsertErrorMsg : String :=
  "table __corro_bookkeeping has no column named start_version"

/-- make_broadcastable_changes (http.rs lines 48-168).  The user closure `f` runs
inside the transaction; an error from it, or a `rows_impacted` above the cap, rolls
the transaction back, leaving every agent component unchanged.  Otherwise the local
changes since `start_version` are drained (their `site_id` set to the local actor)
and, when they advanced the db version, the bookkeeping INSERT is attempted — which
SQLite rejects, because the statement names the column `start_version` that the
table does not have; the `?` operator propagates the rusqlite error, the
transaction is dropped and rolled back, and the agent is left unchanged.  Only when
no drained change is newer than `start_version` does the transaction commit: then
no bookkeeping row is written, and the (under the SQL drain query unreachable) case
of a non-empty changeset without a new db version registers `Cleared` and queues a
broadcast, as the source's `!changes.is_empty()` block does with `db_version` None.
The `agent.clock().new_timestamp()` call is abstracted to the clock value. -/
def make_broadcastable_changes (E : WriteEngineOps S)
    (f : S → Except ChangeError (T × S)) (a : WriteAgent S) :
    Except ChangeError T × WriteAgent S :=
  let start_version := E.dbversion a.engine
  match f a.engine with
  | Except.error e => (Except.error e, a)
  | Except.ok (ret, s1) =>
    let rows_impacted := E.rowsImpacted s1
    if a.maxChangeSize < rows_impacted then
      (Except.error ChangeError.tooManyRowsImpacted, a)
    else
      let last_version := (Bookie.last a.bookie a.actorId).getD 0
      let version := last_version + 1
      let changes :=
        (E.drainSince s1 start_version).map (fun c => { c with site_id := a.actorId })
      let end_version := changes.foldl (fun m c => max m c.db_version) start_version
      let ts : Timestamp := a.clock
      if start_version < end_version then
        (Except.error (ChangeError.rusqlite bookkeepingInsertErrorMsg), a)
      else
        if changes.isEmpty then
          (Except.ok ret, { a with engine := s1 })
        else
          let bookie :=
            Bookie.insert a.bookie a.actorId version KnownDbVersion.Cleared
          let broadcasts :=
            a.broadcasts ++ [Message.change a.actorId version changes ts]
          (Except.ok ret,
            { a with engine := s1, bookie := bookie, broadcasts := broadcasts })

/-- One entry of the `results` array of the /db/execute response (`RqliteResult`):
either a per-statement execute result or a per-statement error string. -/
inductive RqliteResult where
  | executeRes (rows_affected : Nat)
  | errorRes (msg : String)
deriving DecidableEq, Repr

/-- The closure api_v1_db_execute passes to make_broadcastable_changes (http.rs lines
210-235): each statement is executed through execute_statement; a success is recorded
as an Execute result and a failure as an Error result, after which the remaining
statements still run.  `execStmt` abstracts execute_statement over an opaque
statement type `Q`; a failed statement leaves the transaction state untouched. -/
def run_statements (execStmt : S → Q → Except String (Nat × S)) (s : S) :
    List Q → S × List RqliteResult
  | [] => (s, [])
  | stmt :: rest =>
    match execStmt s stmt with
    | Except.ok (n, s1) =>
      let out := run_statements execStmt s1 rest
      (out.1, RqliteResult.executeRes n :: out.2)
    | Except.error e =>
      let out := run_statements execStmt s rest
      (out.1, RqliteResult.errorRes e :: out.2)

/-- The Display strings of `enum ChangeError` (its thiserror attributes), as
api_v1_db_execute renders them with `e.to_string()`. -/
def changeErrorMessage : ChangeError → String
  | ChangeError.connAcquisition => "could not acquire pooled connection"
  | ChangeError.rusqlite msg => "rusqlite: " ++ msg
  | ChangeError.tooManyRowsImpacted => "too many rows impacted"

/-- The closure api_v1_db_execute hands to make_broadcastable_changes: run every
statement, collecting per-statement results, and always return Ok — individual
statement failures are data, not errors. -/
def executeClosure (execStmt : S → Q → Except String (Nat × S))
    (statements : List Q) : S → Except ChangeError (List RqliteResult × S) :=
  fun s =>
    let out := run_statements execStmt s statements
    Except.ok (out.2, out.1)

/-- api_v1_db_execute (http.rs lines 193-274), returning the HTTP status code, the
result list, and the resulting agent: an empty statement list is a 400; otherwise the
statements run through make_broadcastable_changes, with TooManyRowsImpacted mapped to
400, any other ChangeError to 500, and success to 200. -/
def api_v1_db_execute (E : WriteEngineOps S)
    (execStmt : S → Q → Except String (Nat × S)) (a : WriteAgent S)
    (statements : List Q) : Nat × List RqliteResult × WriteAgent S :=
  if statements.isEmpty then
    (400, [RqliteResult.errorRes "at least 1 statement is required"], a)
  else
    let res := make_broadcastable_changes E (executeClosure execStmt statements) a
    match res with
    | (Except.ok results, a1) => (200, results, a1)
    | (Except.error ChangeError.tooManyRowsImpacted, a1) =>
      (400, [RqliteResult.errorRes "too many changed columns"], a1)
    | (Except.error e, a1) => (500, [RqliteResult.errorRes (changeErrorMessage e)], a1)

/-! ## SQL column lists of the bookkeeping table and its inserts

The initial migration (agent.rs, init_migration, lines 1727-1762) creates
`__corro_bookkeeping(actor_id, version, db_version, ts)`.  SQLite accepts an INSERT
naming explicit columns only when every named column exists in the table. -/

/-- Columns of `__corro_bookkeeping` as created by init_migration (agent.rs). -/
def corroBookkeepingTableColumns : List String :=
  ["actor_id", "version", "db_version", "ts"]

/-- Columns named by the bookkeeping INSERT of make_broadcastable_changes (http.rs
lines 110-115): `INSERT INTO __corro_bookkeeping (actor_id, start_version,
db_version, ts)`. -/
def localWriteBookkeepingInsertColumns : List String :=
  ["actor_id", "start_version", "db_version", "ts"]

/-- Columns named by the bookkeeping INSERT of process_msg (agent.rs line 1064):
`INSERT INTO __corro_bookkeeping (actor_id, version, db_version, ts)`. -/
def remoteIngestBookkeepingInsertColumns : List String :=
  ["actor_id", "version", "db_version", "ts"]

/-- SQLite accepts an INSERT with an explicit column list exactly when every named
column is a column of the target table. -/
def sqliteAcceptsInsertColumns (tableCols insertCols : List String) : Bool :=
  insertCols.all (fun c => tableCols.contains c)

/-! ## Broadcast transport (agent.rs: handle_broadcast, handle_payload)

`Message::decode` and the length-delimited codec live in corro-types, outside src/.
Modelled from the spec (section 4.G): the buffer is a sequence of length-delimited
frames, each either decoding to a Message or failing to decode; an exhausted buffer
yields Ok(None). -/

/-- One length-delimited frame of a broadcast buffer: it either decodes to a Message
or fails to decode (a corrupted frame). -/
inductive Frame where
  | good (msg : Message)
  | bad
deriving DecidableEq, Repr

/-- handle_broadcast (agent.rs lines 916-989), returning the messages sent on to the
bcast channel: frames decode in order; a Change already contained in the Bookie is
skipped (stop disseminating), a message whose actor is the local actor is not
re-sent, an exhausted buffer (Ok(None)) ends the loop, and a frame that fails to
decode is logged and ends the loop. -/
def handle_broadcast (self_actor_id : ActorId) (bookie : Bookie) :
    List Frame → List Message
  | [] => []
  | Frame.bad :: _ => []
  | Frame.good m :: rest =>
    match m with
    | Message.change actor_id version changeset ts =>
      if Bookie.contains bookie actor_id version then
        handle_broadcast self_actor_id bookie rest
      else if actor_id = self_actor_id then
        handle_broadcast self_actor_id bookie rest
      else
        Message.change actor_id version changeset ts
          :: handle_broadcast self_actor_id bookie rest
    | Message.upsertSubscription actor_id id filter ts =>
      if actor_id = self_actor_id then
        handle_broadcast self_actor_id bookie rest
      else
        Message.upsertSubscription actor_id id filter ts
          :: handle_broadcast self_actor_id bookie rest

/-- The one-byte payload-kind tag of every UDP datagram (agent.rs `enum
PayloadKind`). -/
inductive PayloadKind where
  | Swim
  | Broadcast
  | PriorityBroadcast
  | Unknown (b : Nat)
deriving DecidableEq, Repr

/-- The dispatch on the first byte of a datagram (agent.rs lines 874-883):
0 is SWIM, 1 is Broadcast, 2 is PriorityBroadcast, anything else is Unknown. -/
def payloadKindOfByte (b : Nat) : PayloadKind :=
  match b with
  | 0 => PayloadKind.Swim
  | 1 => PayloadKind.Broadcast
  | 2 => PayloadKind.PriorityBroadcast
  | n => PayloadKind.Unknown n

/-- What handle_payload did with a datagram: forwarded the remaining body opaquely to
the SWIM failure detector, or handled it as broadcast frames (with the resulting
forwarded messages). -/
inductive PayloadEffect where
  | swimForward (body : List Nat)
  | broadcastHandled (forwarded : List Message)
deriving DecidableEq, Repr

/-- handle_payload (agent.rs lines 863-914) on a datagram given as its byte list.
When no kind is pre-supplied, the first byte is consumed and dispatched on; kind
Swim forwards the remaining body opaquely to foca, Broadcast and PriorityBroadcast
append the body to the frame buffer and run handle_broadcast on it (`framesOf`
abstracts the length-delimited decoding of the body into frames), and an Unknown
kind returns an error, forwarding nothing.  A zero-length datagram is outside the
model (the source's `get_u8` would panic); it is mapped to the Unknown-kind error. -/
def handle_payload (kind : Option PayloadKind) (framesOf : List Nat → List Frame)
    (self_actor_id : ActorId) (bookie : Bookie) (payload : List Nat) :
    Except Nat (PayloadKind × PayloadEffect) :=
  let kb : PayloadKind × List Nat :=
    match kind, payload with
    | some k, body => (k, body)
    | none, b :: body => (payloadKindOfByte b, body)
    | none, [] => (PayloadKind.Unknown 256, [])
  match kb with
  | (PayloadKind.Swim, body) =>
    Except.ok (PayloadKind.Swim, PayloadEffect.swimForward body)
  | (PayloadKind.Broadcast, body) =>
    Except.ok (PayloadKind.Broadcast,
      PayloadEffect.broadcastHandled
        (handle_broadcast self_actor_id bookie (framesOf body)))
  | (PayloadKind.PriorityBroadcast, body) =>
    Except.ok (PayloadKind.PriorityBroadcast,
      PayloadEffect.broadcastHandled
        (handle_broadcast self_actor_id bookie (framesOf body)))
  | (PayloadKind.Unknown n, _) => Except.error n

/-! ## Sync client (agent.rs: handle_sync)

The backoff iterator (`backoff::Backoff::new(5).timeout_range(100ms, 1s).iter()`)
comes from a crate outside src/. -/

/-- Modelled from the spec: the backoff delays of the sync client, "exponential with
ceiling" (section 9) over the configured range [100 ms, 1 s] (section 4.I step 4):
the k-th retry sleeps `min(1000, 100 * 2^k)` milliseconds. -/
def backoffDelayMs (k : Nat) : Nat :=
  min 1000 (100 * 2 ^ k)

/-- Outcome of one sync attempt against the chosen peer (handle_sync_receive): a
success with an op count, a 503 Unavailable response, or any other error (bad
status, timeout, decode, pool, I/O). -/
inductive SyncOutcome where
  | success (n : Nat)
  | unavailable
  | failure
deriving DecidableEq, Repr

/-- The retry loop of handle_sync (agent.rs lines 1164-1234), with the outcome of the
i-th attempt given by the oracle `outcomes`: a success ends the cycle; an Unavailable
error retries after a backoff delay while retries remain (Backoff::new(5): five
retry delays); any other error, or an Unavailable with the backoff exhausted, ends
the cycle with failure.  Returns the number of attempts made, whether the cycle
succeeded, and the delays slept. -/
def handle_sync_go (outcomes : Nat → SyncOutcome) :
    Nat → Nat → Nat × Bool × List Nat
  | 0, i =>
    match outcomes i with
    | SyncOutcome.success _ => (i + 1, true, [])
    | _ => (i + 1, false, [])
  | retries + 1, i =>
    match outcomes i with
    | SyncOutcome.success _ => (i + 1, true, [])
    | SyncOutcome.failure => (i + 1, false, [])
    | SyncOutcome.unavailable =>
      let d := backoffDelayMs i
      let out := handle_sync_go outcomes retries (i + 1)
      (out.1, out.2.1, d :: out.2.2)

/-- handle_sync: the retry loop started with the five retry slots of
`Backoff::new(5)`. -/
def handle_sync (outcomes : Nat → SyncOutcome) : Nat × Bool × List Nat :=
  handle_sync_go outcomes 5 0

/-! ## Concrete instances used by witnesses and counterexamples

A small executable stand-in for the cr-sqlite engine: its state is the content of
the crsql_changes table together with the row-impact count of the last insert.
Re-inserting an already-present change impacts zero rows (the CRDT merge is
idempotent); a new change impacts one row. -/

/-- Engine state of the demo engine: the applied changes and the rows impacted by
the most recent insert. -/
abbrev DemoState := List Change × Int

/-- Demo ingestion engine: db_version is the largest db_version applied; inserting a
change already present impacts 0 rows, a new one impacts 1. -/
def demoEngine : EngineOps DemoState where
  dbversion s := s.1.foldl (fun m c => max m c.db_version) 0
  insertChange s c := if s.1.contains c then (s.1, 0) else (s.1 ++ [c], 1)
  rowsImpacted s := s.2
  maxDbVersion s := s.1.foldl (fun m c => max m c.db_version) 0

/-- Demo local-write engine over the crsql_changes content: db_version is the
largest db_version present, rows impacted is the number of changes, and draining
selects the changes newer than the given db version. -/
def demoWriteEngine : WriteEngineOps (List Change) where
  dbversion s := s.foldl (fun m c => max m c.db_version) 0
  rowsImpacted s := Int.ofNat s.length
  drainSince s v := s.filter (fun c => v < c.db_version)

/-- A sample row change with the given primary key and db_version. -/
def demoChange (pk : String) (dbv : Int) : Change :=
  ⟨"tests", pk, "text", "hello", 1, dbv, 9⟩

/-- A fresh local agent for the demo write engine: actor 9, the given row-impact
cap, and every component empty. -/
def demoAgent (cap : Int) : WriteAgent (List Change) :=
  ⟨9, cap, 0, [], [], [], [], []⟩

/-- A demo execute_statement: statement 0 fails with a syntax error, any other
statement inserts one row and reports one row affected. -/
def demoExecStmt : List Change → Nat → Except String (Nat × List Change) :=
  fun s k =>
    if k = 0 then Except.error "syntax"
    else Except.ok (1, demoChange "pk1" 1 :: s)

/-! ## Theorems -/

/-- Inserting a version into the Bookie makes contains hold for it. -/
theorem bookie_contains_insert (b : Bookie) (act : ActorId) (ver : Version)
    (st : KnownDbVersion) :
    Bookie.contains (Bookie.insert b act ver st) act ver = true := by
  simp [Bookie.insert, Bookie.contains]

/-- The impactful projection computed by the per-change loop of process_msg is a
subsequence of the incoming changeset. -/
theorem applyChanges_sublist (E : EngineOps S) (s : S) (cs : List Change) :
    ((applyChanges E s cs).2).Sublist cs := by
  induction cs generalizing s with
  | nil => simp [applyChanges]
  | cons c rest ih =>
    by_cases hk : 0 < E.rowsImpacted (E.insertChange s c)
    · simpa [applyChanges, hk] using (ih (E.insertChange s c)).cons₂ c
    · simpa [applyChanges, hk] using (ih (E.insertChange s c)).cons c

/-- After process_msg handles a Change message, the Bookie of the resulting state
contains its (actor, version), whether the message was new or already known. -/
theorem process_msg_contains_after (E : EngineOps S) (st : IngestState S)
    (a : ActorId) (v : Version) (cs : List Change) (ts : Timestamp) :
    Bookie.contains ((process_msg E st (Message.change a v cs ts)).2).bookie a v
      = true := by
  cases hc : Bookie.contains st.bookie a v
  · simp only [process_msg, hc, Bool.false_eq_true, if_false, Bookie.add]
    exact bookie_contains_insert ..
  · simp [process_msg, hc]

/-- C2 counterexample: a Change message whose first row-change is already present in
the engine (so its application impacts zero rows) and whose second is new.  The
message is new to the Bookie and is applied, but the value process_msg returns for
rebroadcast carries only the impactful projection [demoChange pk2], not the original
two-change changeset — refuting the claim that the original unprojected message is
returned. -/
theorem process_msg_projection_counterexample :
    (process_msg demoEngine ⟨[], [], ([demoChange "pk1" 1], 0), []⟩
        (Message.change 9 1 [demoChange "pk1" 1, demoChange "pk2" 2] 5)).1 =
      some (Message.change 9 1 [demoChange "pk2" 2] 5) ∧
    (process_msg demoEngine ⟨[], [], ([demoChange "pk1" 1], 0), []⟩
        (Message.change 9 1 [demoChange "pk1" 1, demoChange "pk2" 2] 5)).1 ≠
      some (Message.change 9 1 [demoChange "pk1" 1, demoChange "pk2" 2] 5) := by
  decide

/-- C2 amended: for every Change message that the Ingestor applies (its (actor,
version) not already known), the value process_msg returns for rebroadcast is the
message with its changeset replaced by the impactful projection — the subsequence of
row-changes whose application reported rows_impacted > 0 — not the original
changeset. -/
theorem process_msg_returns_projection (E : EngineOps S) (st : IngestState S)
    (a : ActorId) (v : Version) (cs : List Change) (ts : Timestamp)
    (h : Bookie.contains st.bookie a v = false) :
    (process_msg E st (Message.change a v cs ts)).1 =
      some (Message.change a v ((applyChanges E st.engine cs).2) ts) ∧
    ((applyChanges E st.engine cs).2).Sublist cs := by
  exact ⟨by simp [process_msg, h], applyChanges_sublist ..⟩

/-- C2 witness: the amended theorem at the concrete counterexample input. -/
theorem process_msg_returns_projection_witness :
    (process_msg demoEngine ⟨[], [], ([demoChange "pk1" 1], 0), []⟩
        (Message.change 9 1 [demoChange "pk1" 1, demoChange "pk2" 2] 5)).1 =
      some (Message.change 9 1
        ((applyChanges demoEngine ([demoChange "pk1" 1], 0)
          [demoChange "pk1" 1, demoChange "pk2" 2]).2) 5) ∧
    ((applyChanges demoEngine ([demoChange "pk1" 1], 0)
        [demoChange "pk1" 1, demoChange "pk2" 2]).2).Sublist
      [demoChange "pk1" 1, demoChange "pk2" 2] :=
  process_msg_returns_projection demoEngine
    ⟨[], [], ([demoChange "pk1" 1], 0), []⟩ 9 1
    [demoChange "pk1" 1, demoChange "pk2" 2] 5 (by decide)

/-- C3: ingestion is idempotent.  A Change message whose (actor, version) is already
in the Bookie makes process_msg return None with the agent state — Bookie,
bookkeeping rows, engine, subscription events — unchanged; consequently applying the
same Change message n+1 times yields exactly the state of applying it once. -/
theorem process_msg_idempotent (E : EngineOps S) (st : IngestState S)
    (a : ActorId) (v : Version) (cs : List Change) (ts : Timestamp) :
    (Bookie.contains st.bookie a v = true →
      process_msg E st (Message.change a v cs ts) = (none, st)) ∧
    ∀ n : Nat, processN E st (Message.change a v cs ts) (n + 1) =
      processN E st (Message.change a v cs ts) 1 := by
  have hstep : ∀ st2 : IngestState S, Bookie.contains st2.bookie a v = true →
      process_msg E st2 (Message.change a v cs ts) = (none, st2) := by
    intro st2 h
    simp [process_msg, h]
  refine ⟨hstep st, ?_⟩
  intro n
  induction n with
  | zero => rfl
  | succ n ih =>
    show (process_msg E (processN E st (Message.change a v cs ts) (n + 1))
        (Message.change a v cs ts)).2 = _
    rw [ih]
    have hc : Bookie.contains
        (processN E st (Message.change a v cs ts) 1).bookie a v = true :=
      process_msg_contains_after E st a v cs ts
    rw [hstep _ hc]

/-- C3 witness: the idempotence theorem at a concrete already-known message. -/
theorem process_msg_idempotent_witness :
    process_msg demoEngine ⟨[(7, 3, KnownDbVersion.Cleared)], [], ([], 0), []⟩
        (Message.change 7 3 [] 0) =
      (none, ⟨[(7, 3, KnownDbVersion.Cleared)], [], ([], 0), []⟩) ∧
    processN demoEngine ⟨[(7, 3, KnownDbVersion.Cleared)], [], ([], 0), []⟩
        (Message.change 7 3 [] 0) 2 =
      processN demoEngine ⟨[(7, 3, KnownDbVersion.Cleared)], [], ([], 0), []⟩
        (Message.change 7 3 [] 0) 1 :=
  ⟨(process_msg_idempotent demoEngine
      ⟨[(7, 3, KnownDbVersion.Cleared)], [], ([], 0), []⟩ 7 3 [] 0).1 (by decide),
   (process_msg_idempotent demoEngine
      ⟨[(7, 3, KnownDbVersion.Cleared)], [], ([], 0), []⟩ 7 3 [] 0).2 1⟩

/-- C1: the claim asserts that the bookkeeping insert of a non-empty local write
succeeds against the table created by the initial migration.  It does not: the
INSERT of make_broadcastable_changes names a column `start_version` that the
`__corro_bookkeeping` table created by init_migration does not have (its columns are
actor_id, version, db_version, ts), so SQLite rejects the statement; the analogous
insert on the remote-ingestion path names exactly the table's columns and is
accepted. -/
theorem localWriteBookkeepingInsertRejected :
    sqliteAcceptsInsertColumns corroBookkeepingTableColumns
      localWriteBookkeepingInsertColumns = false ∧
    sqliteAcceptsInsertColumns corroBookkeepingTableColumns
      remoteIngestBookkeepingInsertColumns = true ∧
    "start_version" ∈ localWriteBookkeepingInsertColumns ∧
    "start_version" ∉ corroBookkeepingTableColumns := by
  decide

/-- C7 counterexample: with an empty Bookie and a foreign Change message framed
after a corrupted frame, handle_broadcast forwards nothing — the decode loop breaks
on the corrupted frame — although the same message alone would have been forwarded;
so a corrupted frame does discard the subsequent frames of the buffer. -/
theorem handle_broadcast_bad_frame_counterexample :
    handle_broadcast 0 []
        [Frame.bad, Frame.good (Message.change 1 1 [demoChange "pk1" 1] 0)] = [] ∧
    handle_broadcast 0 []
        [Frame.good (Message.change 1 1 [demoChange "pk1" 1] 0)] =
      [Message.change 1 1 [demoChange "pk1" 1] 0] ∧
    handle_broadcast 0 []
        [Frame.bad, Frame.good (Message.change 1 1 [demoChange "pk1" 1] 0)] ≠
      handle_broadcast 0 []
        [Frame.good (Message.change 1 1 [demoChange "pk1" 1] 0)] := by
  decide

/-- C7 amended: when a frame fails to decode, the frame is logged and the decode
loop of handle_broadcast terminates for this payload: no message is forwarded from
it or from any frame after it in the buffer. -/
theorem handle_broadcast_stops_at_bad_frame (self_actor_id : ActorId)
    (bookie : Bookie) (rest : List Frame) :
    handle_broadcast self_actor_id bookie (Frame.bad :: rest) = [] := by
  rfl

/-- C8: a 503 (Unavailable) outcome on every attempt makes the sync cycle try 6
times in total (the initial attempt plus the 5 backoff retries), sleeping 5 backoff
delays, each within [100 ms, 1 s], before the cycle is abandoned; any other error
outcome on the first attempt abandons the cycle immediately after that single
attempt, with no backoff sleep. -/
theorem handle_sync_unavailable_retries (outcomes : Nat → SyncOutcome) :
    ((∀ i, outcomes i = SyncOutcome.unavailable) →
      handle_sync outcomes = (6, false,
        [backoffDelayMs 0, backoffDelayMs 1, backoffDelayMs 2,
         backoffDelayMs 3, backoffDelayMs 4]) ∧
      ∀ d ∈ (handle_sync outcomes).2.2, 100 ≤ d ∧ d ≤ 1000) ∧
    (outcomes 0 = SyncOutcome.failure → handle_sync outcomes = (1, false, [])) := by
  constructor
  · intro h
    have ho : outcomes = fun _ => SyncOutcome.unavailable := funext h
    subst ho
    exact ⟨by decide, by decide⟩
  · intro h
    simp [handle_sync, handle_sync_go, h]

/-- C8 witness: the two halves of the retry theorem at concrete outcome oracles. -/
theorem handle_sync_unavailable_retries_witness :
    handle_sync (fun _ => SyncOutcome.unavailable) = (6, false,
      [backoffDelayMs 0, backoffDelayMs 1, backoffDelayMs 2,
       backoffDelayMs 3, backoffDelayMs 4]) ∧
    handle_sync (fun _ => SyncOutcome.failure) = (1, false, []) :=
  ⟨((handle_sync_unavailable_retries (fun _ => SyncOutcome.unavailable)).1
      (fun _ => rfl)).1,
   (handle_sync_unavailable_retries (fun _ => SyncOutcome.failure)).2 rfl⟩

/-- C9: handle_payload dispatches on the first byte of the datagram: 0 forwards the
remaining body opaquely to the SWIM failure detector, 1 and 2 hand the body's frames
to the broadcast handler, and any other first byte is an error after which nothing
is forwarded. -/
theorem handle_payload_dispatch (framesOf : List Nat → List Frame)
    (self_actor_id : ActorId) (bookie : Bookie) (b : Nat) (body : List Nat) :
    (b = 0 → handle_payload none framesOf self_actor_id bookie (b :: body) =
      Except.ok (PayloadKind.Swim, PayloadEffect.swimForward body)) ∧
    (b = 1 → handle_payload none framesOf self_actor_id bookie (b :: body) =
      Except.ok (PayloadKind.Broadcast, PayloadEffect.broadcastHandled
        (handle_broadcast self_actor_id bookie (framesOf body)))) ∧
    (b = 2 → handle_payload none framesOf self_actor_id bookie (b :: body) =
      Except.ok (PayloadKind.PriorityBroadcast, PayloadEffect.broadcastHandled
        (handle_broadcast self_actor_id bookie (framesOf body)))) ∧
    (b ≠ 0 → b ≠ 1 → b ≠ 2 →
      handle_payload none framesOf self_actor_id bookie (b :: body) =
        Except.error b) := by
  refine ⟨fun h => ?_, fun h => ?_, fun h => ?_, fun h0 h1 h2 => ?_⟩
  · subst h; rfl
  · subst h; rfl
  · subst h; rfl
  · obtain ⟨m, rfl⟩ : ∃ m, b = m + 3 := ⟨b - 3, by omega⟩
    rfl

/-- C9 witness: the four dispatch cases at concrete first bytes 0, 1, 2 and 7. -/
theorem handle_payload_dispatch_witness :
    handle_payload none (fun _ => []) 0 [] [0, 42] =
      Except.ok (PayloadKind.Swim, PayloadEffect.swimForward [42]) ∧
    handle_payload none (fun _ => []) 0 [] [1, 42] =
      Except.ok (PayloadKind.Broadcast, PayloadEffect.broadcastHandled
        (handle_broadcast 0 [] ((fun _ => []) [42]))) ∧
    handle_payload none (fun _ => []) 0 [] [2, 42] =
      Except.ok (PayloadKind.PriorityBroadcast, PayloadEffect.broadcastHandled
        (handle_broadcast 0 [] ((fun _ => []) [42]))) ∧
    handle_payload none (fun _ => []) 0 [] [7, 42] = Except.error 7 :=
  ⟨(handle_payload_dispatch (fun _ => []) 0 [] 0 [42]).1 rfl,
   (handle_payload_dispatch (fun _ => []) 0 [] 1 [42]).2.1 rfl,
   (handle_payload_dispatch (fun _ => []) 0 [] 2 [42]).2.2.1 rfl,
   (handle_payload_dispatch (fun _ => []) 0 [] 7 [42]).2.2.2 (by decide) (by decide)
     (by decide)⟩

/-- C4: a user transaction whose rows_impacted exceeds the configured
max_change_size cap makes make_broadcastable_changes fail with TooManyRowsImpacted,
leaving the whole agent — Bookie, bookkeeping rows, engine, broadcasts,
subscription events — exactly as it was; and the /db/execute handler maps this
failure to HTTP status 400 with the agent likewise unchanged. -/
theorem too_many_rows_impacted_aborts (E : WriteEngineOps S)
    (f : S → Except ChangeError (T × S)) (a : WriteAgent S) (ret : T) (s1 : S)
    (execStmt : S → Q → Except String (Nat × S)) (stmts : List Q)
    (h1 : f a.engine = Except.ok (ret, s1))
    (h2 : a.maxChangeSize < E.rowsImpacted s1) :
    make_broadcastable_changes E f a =
      (Except.error ChangeError.tooManyRowsImpacted, a) ∧
    (stmts ≠ [] →
      a.maxChangeSize <
        E.rowsImpacted (run_statements execStmt a.engine stmts).1 →
      (api_v1_db_execute E execStmt a stmts).1 = 400 ∧
      (api_v1_db_execute E execStmt a stmts).2.2 = a) := by
  constructor
  · simp [make_broadcastable_changes, h1, h2]
  · intro hne hcap
    have hmk : make_broadcastable_changes E (executeClosure execStmt stmts) a =
        (Except.error ChangeError.tooManyRowsImpacted, a) := by
      simp [make_broadcastable_changes, executeClosure, hcap]
    cases stmts with
    | nil => exact absurd rfl hne
    | cons q rest =>
      constructor <;> simp [api_v1_db_execute, hmk]

/-- C4 witness: a write of one row against a zero cap, directly and through the
/db/execute handler. -/
theorem too_many_rows_impacted_aborts_witness :
    make_broadcastable_changes demoWriteEngine
        (fun _ => Except.ok ((), [demoChange "pk1" 1])) (demoAgent 0) =
      (Except.error ChangeError.tooManyRowsImpacted, demoAgent 0) ∧
    (api_v1_db_execute demoWriteEngine
        (fun s (_ : Nat) => Except.ok (1, demoChange "pk1" 1 :: s))
        (demoAgent 0) [0]).1 = 400 ∧
    (api_v1_db_execute demoWriteEngine
        (fun s (_ : Nat) => Except.ok (1, demoChange "pk1" 1 :: s))
        (demoAgent 0) [0]).2.2 = demoAgent 0 :=
  ⟨(too_many_rows_impacted_aborts demoWriteEngine
      (fun _ => Except.ok ((), [demoChange "pk1" 1])) (demoAgent 0) ()
      [demoChange "pk1" 1]
      (fun s (_ : Nat) => Except.ok (1, demoChange "pk1" 1 :: s)) [0]
      rfl (by decide)).1,
   (too_many_rows_impacted_aborts demoWriteEngine
      (fun _ => Except.ok ((), [demoChange "pk1" 1])) (demoAgent 0) ()
      [demoChange "pk1" 1]
      (fun s (_ : Nat) => Except.ok (1, demoChange "pk1" 1 :: s)) [0]
      rfl (by decide)).2 (by decide) (by decide)⟩

/-- C5: a local write whose drained changeset is empty hands no message to the
Broadcaster, publishes no subscription event, writes no bookkeeping row, and leaves
the local actor's Bookie entry (hence its last version) unchanged; only the
engine-side effects of the user's closure are committed. -/
theorem empty_write_no_effects (E : WriteEngineOps S)
    (f : S → Except ChangeError (T × S)) (a : WriteAgent S) (ret : T) (s1 : S)
    (h1 : f a.engine = Except.ok (ret, s1))
    (h2 : ¬ a.maxChangeSize < E.rowsImpacted s1)
    (h3 : E.drainSince s1 (E.dbversion a.engine) = []) :
    make_broadcastable_changes E f a = (Except.ok ret, { a with engine := s1 }) ∧
    Bookie.last (make_broadcastable_changes E f a).2.bookie a.actorId =
      Bookie.last a.bookie a.actorId := by
  have hmk : make_broadcastable_changes E f a =
      (Except.ok ret, { a with engine := s1 }) := by
    simp [make_broadcastable_changes, h1, h2, h3]
  exact ⟨hmk, by rw [hmk]⟩

/-- C5 witness: a closure that changes nothing on an empty engine. -/
theorem empty_write_no_effects_witness :
    make_broadcastable_changes demoWriteEngine
        (fun s => Except.ok ((), s)) (demoAgent 10) =
      (Except.ok (), { demoAgent 10 with engine := [] }) ∧
    Bookie.last (make_broadcastable_changes demoWriteEngine
        (fun s => Except.ok ((), s)) (demoAgent 10)).2.bookie
      (demoAgent 10).actorId =
      Bookie.last (demoAgent 10).bookie (demoAgent 10).actorId :=
  empty_write_no_effects demoWriteEngine (fun s => Except.ok ((), s))
    (demoAgent 10) () [] rfl (by decide) (by decide)

/-- C6: the claim — every successful non-empty local write registers version
last+1, so committed writes carry consecutive versions — states the spec's intent
(section 8, property 1), and the repo's own test asserts last = Some(1) after one
write; but the code makes it unsatisfiable: any local write whose drained changes
advance the db version hits the bookkeeping INSERT that SQLite rejects (the C1
column slip), returns the rusqlite error with the whole agent rolled back, and
registers nothing — the Bookie and its last version never change, so no version is
ever registered, consecutively or otherwise. -/
theorem nonempty_local_write_registers_nothing (E : WriteEngineOps S)
    (f : S → Except ChangeError (T × S)) (a : WriteAgent S) (ret : T) (s1 : S)
    (h1 : f a.engine = Except.ok (ret, s1))
    (h2 : ¬ a.maxChangeSize < E.rowsImpacted s1)
    (h3 : E.dbversion a.engine <
      ((E.drainSince s1 (E.dbversion a.engine)).map
        (fun c => { c with site_id := a.actorId })).foldl
          (fun m c => max m c.db_version) (E.dbversion a.engine)) :
    make_broadcastable_changes E f a =
      (Except.error (ChangeError.rusqlite bookkeepingInsertErrorMsg), a) ∧
    Bookie.last (make_broadcastable_changes E f a).2.bookie a.actorId =
      Bookie.last a.bookie a.actorId ∧
    Bookie.contains (make_broadcastable_changes E f a).2.bookie a.actorId
      ((Bookie.last a.bookie a.actorId).getD 0 + 1) =
      Bookie.contains a.bookie a.actorId
        ((Bookie.last a.bookie a.actorId).getD 0 + 1) := by
  have hmk : make_broadcastable_changes E f a =
      (Except.error (ChangeError.rusqlite bookkeepingInsertErrorMsg), a) := by
    simp [make_broadcastable_changes, h1, h2, h3]
  exact ⟨hmk, by rw [hmk], by rw [hmk]⟩

/-- C6 witness: a one-row write against an empty engine fails with the rejected
bookkeeping insert and leaves the Bookie untouched. -/
theorem nonempty_local_write_registers_nothing_witness :
    make_broadcastable_changes demoWriteEngine
        (fun _ => Except.ok ((), [demoChange "pk1" 1])) (demoAgent 10) =
      (Except.error (ChangeError.rusqlite bookkeepingInsertErrorMsg),
        demoAgent 10) ∧
    Bookie.last (make_broadcastable_changes demoWriteEngine
        (fun _ => Except.ok ((), [demoChange "pk1" 1]))
        (demoAgent 10)).2.bookie (demoAgent 10).actorId =
      Bookie.last (demoAgent 10).bookie (demoAgent 10).actorId ∧
    Bookie.contains (make_broadcastable_changes demoWriteEngine
        (fun _ => Except.ok ((), [demoChange "pk1" 1]))
        (demoAgent 10)).2.bookie (demoAgent 10).actorId
      ((Bookie.last (demoAgent 10).bookie (demoAgent 10).actorId).getD 0 + 1) =
      Bookie.contains (demoAgent 10).bookie (demoAgent 10).actorId
        ((Bookie.last (demoAgent 10).bookie (demoAgent 10).actorId).getD 0
          + 1) :=
  nonempty_local_write_registers_nothing demoWriteEngine
    (fun _ => Except.ok ((), [demoChange "pk1" 1])) (demoAgent 10) ()
    [demoChange "pk1" 1] rfl (by decide) (by decide)

/-- C10: the claim's closure-level behavior is real — a statement that fails with
an SQL error becomes that statement's entry in the results list, the remaining
statements still execute on the untouched transaction state, and the closure
returns Ok, never surfacing the failure — but the handler does not return HTTP 200
for such a request once any surviving statement produced row changes: the write
then reaches the bookkeeping INSERT that SQLite rejects (the C1 column slip), the
transaction rolls back, nothing commits, and the handler answers 500.  Evaluated at
the failing input: statement 0 fails with a syntax error, statement 1 inserts one
row; both results are recorded by the closure, yet /db/execute returns 500 with the
rusqlite message and the agent unchanged. -/
theorem statement_error_recorded_but_write_fails :
    run_statements demoExecStmt (demoAgent 10).engine [0, 1] =
      ([demoChange "pk1" 1],
        [RqliteResult.errorRes "syntax", RqliteResult.executeRes 1]) ∧
    executeClosure demoExecStmt [0, 1] (demoAgent 10).engine =
      Except.ok ([RqliteResult.errorRes "syntax", RqliteResult.executeRes 1],
        [demoChange "pk1" 1]) ∧
    api_v1_db_execute demoWriteEngine demoExecStmt (demoAgent 10) [0, 1] =
      (500,
        [RqliteResult.errorRes
          (changeErrorMessage (ChangeError.rusqlite bookkeepingInsertErrorMsg))],
        demoAgent 10) :=
  ⟨rfl, rfl, rfl⟩

end Corrosion
